import Mathlib

/-!
Verification of the constraint-workshop authority-decision engine.

This file shallowly embeds the decision core of the repository:
  * `authority_gate.py`            — Evidence levels and the AuthorityGate.
  * `mgtp/types.py`                — RiskClass, TransitionOutcome, the canonical
                                     DecisionRecord with its canonical bytes/hash.
  * `mgtp/evaluate.py`             — registry-less evaluator `evaluate` and the
                                     registry helper `evaluate_transition` wrapper
                                     in `mgtp/evaluate_transition.py`.
  * `mgtp/decision_record.py`      — the time-bounded, evidenced evaluator.
  * `mgtp/evaluator.py`            — the second (window-seconds) time-bounded path.
  * `commit_gate/.../canonicalise.py` — canonical JSON bytes and sha256 hashing.
  * `commit_gate/.../engine.py`    — rule resolver.
  * `commit_gate/.../drift.py`     — authority drift detector.

Machine-level details are embedded explicitly: 32-bit words are `Nat` reduced
mod 2^32, SHA-256 is implemented in full, UTF-8 encoding and JSON string
escaping follow Python's `json.dumps` (both `ensure_ascii` modes).  Canonical
"bytes" are represented as the `String` whose UTF-8 encoding is the byte
sequence produced by the Python code; since UTF-8 encoding is injective,
equality of these strings coincides with byte-identity of the outputs.
-/

/-! ### SHA-256 over `Nat` (bytes are `Nat` values < 256, words < 2^32) -/

def w32 (n : Nat) : Nat := n % 4294967296

/-- Bitwise NOT on a 32-bit word `x < 2^32`, as `2^32 - 1 - x`. -/
def not32 (x : Nat) : Nat := 4294967295 - x

def rotr32 (n x : Nat) : Nat := w32 ((x >>> n) ||| ((x <<< (32 - n)) % 4294967296))

def bigSigma0 (x : Nat) : Nat := rotr32 2 x ^^^ rotr32 13 x ^^^ rotr32 22 x

def bigSigma1 (x : Nat) : Nat := rotr32 6 x ^^^ rotr32 11 x ^^^ rotr32 25 x

def smallSigma0 (x : Nat) : Nat := rotr32 7 x ^^^ rotr32 18 x ^^^ (x >>> 3)

def smallSigma1 (x : Nat) : Nat := rotr32 17 x ^^^ rotr32 19 x ^^^ (x >>> 10)

def sha256K : List Nat :=
  [1116352408, 1899447441, 3049323471, 3921009573, 961987163, 1508970993,
   2453635748, 2870763221, 3624381080, 310598401, 607225278, 1426881987,
   1925078388, 2162078206, 2614888103, 3248222580, 3835390401, 4022224774,
   264347078, 604807628, 770255983, 1249150122, 1555081692, 1996064986,
   2554220882, 2821834349, 2952996808, 3210313671, 3336571891, 3584528711,
   113926993, 338241895, 666307205, 773529912, 1294757372, 1396182291,
   1695183700, 1986661051, 2177026350, 2456956037, 2730485921, 2820302411,
   3259730800, 3345764771, 3516065817, 3600352804, 4094571909, 275423344,
   430227734, 506948616, 659060556, 883997877, 958139571, 1322822218,
   1537002063, 1747873779, 1955562222, 2024104815, 2227730452, 2361852424,
   2428436474, 2756734187, 3204031479, 3329325298]

structure Sha256State where
  a : Nat
  b : Nat
  c : Nat
  d : Nat
  e : Nat
  f : Nat
  g : Nat
  h : Nat

def sha256H0 : Sha256State :=
  ⟨1779033703, 3144134277, 1013904242, 2773480762, 1359893119, 2600822924, 528734635, 1541459225⟩

/-- Group a byte list into big-endian 32-bit words. -/
def bytesToWords : List Nat → List Nat
  | b1 :: b2 :: b3 :: b4 :: rest => (((b1 * 256 + b2) * 256 + b3) * 256 + b4) :: bytesToWords rest
  | _ => []

def nextScheduleWord (ws : List Nat) : Nat :=
  let l := ws.length
  w32 (smallSigma1 (ws.getD (l - 2) 0) + ws.getD (l - 7) 0 +
       smallSigma0 (ws.getD (l - 15) 0) + ws.getD (l - 16) 0)

def extendSchedule : List Nat → Nat → List Nat
  | ws, 0 => ws
  | ws, Nat.succ n => extendSchedule (ws ++ [nextScheduleWord ws]) n

def sha256Round (st : Sha256State) (kw : Nat × Nat) : Sha256State :=
  let t1 := w32 (st.h + bigSigma1 st.e + ((st.e &&& st.f) ^^^ (not32 st.e &&& st.g)) + kw.1 + kw.2)
  let t2 := w32 (bigSigma0 st.a + ((st.a &&& st.b) ^^^ (st.a &&& st.c) ^^^ (st.b &&& st.c)))
  ⟨w32 (t1 + t2), st.a, st.b, st.c, w32 (st.d + t1), st.e, st.f, st.g⟩

def compressBlock (st : Sha256State) (block : List Nat) : Sha256State :=
  let ws := extendSchedule (bytesToWords block) 48
  let r := (sha256K.zip ws).foldl sha256Round st
  ⟨w32 (st.a + r.a), w32 (st.b + r.b), w32 (st.c + r.c), w32 (st.d + r.d),
   w32 (st.e + r.e), w32 (st.f + r.f), w32 (st.g + r.g), w32 (st.h + r.h)⟩

def toBlocks : List Nat → List (List Nat)
  | [] => []
  | b :: rest => ((b :: rest).take 64) :: toBlocks ((b :: rest).drop 64)
termination_by l => l.length
decreasing_by
  simp [List.length_drop]
  omega

/-- SHA-256 padding: append 0x80, zero bytes, then the 64-bit big-endian bit length. -/
def sha256Pad (msg : List Nat) : List Nat :=
  let len := msg.length
  let padLen := (64 - ((len + 9) % 64)) % 64
  let bitLen := 8 * len
  msg ++ [128] ++ List.replicate padLen 0 ++
    [bitLen / 72057594037927936 % 256, bitLen / 281474976710656 % 256,
     bitLen / 1099511627776 % 256, bitLen / 4294967296 % 256,
     bitLen / 16777216 % 256, bitLen / 65536 % 256, bitLen / 256 % 256, bitLen % 256]

def hexCharList : List Char := "0123456789abcdef".data

def hexDigit (n : Nat) : Char := hexCharList.getD (n % 16) '0'

/-- Eight lowercase hex digits of a 32-bit word, most significant nibble first. -/
def hexWord32 (w : Nat) : List Char :=
  [hexDigit (w / 268435456), hexDigit (w / 16777216), hexDigit (w / 1048576),
   hexDigit (w / 65536), hexDigit (w / 4096), hexDigit (w / 256), hexDigit (w / 16), hexDigit w]

def sha256StateHex (st : Sha256State) : List Char :=
  hexWord32 st.a ++ hexWord32 st.b ++ hexWord32 st.c ++ hexWord32 st.d ++
  hexWord32 st.e ++ hexWord32 st.f ++ hexWord32 st.g ++ hexWord32 st.h

/-- SHA-256 of a byte list, as a lowercase hex string. -/
def sha256BytesHex (msg : List Nat) : String :=
  String.mk (sha256StateHex ((toBlocks (sha256Pad msg)).foldl compressBlock sha256H0))

/-- UTF-8 encoding of one character as a byte list. -/
def utf8EncodeChar (c : Char) : List Nat :=
  let n := c.toNat
  if n < 128 then [n]
  else if n < 2048 then [192 ||| (n >>> 6), 128 ||| (n &&& 63)]
  else if n < 65536 then [224 ||| (n >>> 12), 128 ||| ((n >>> 6) &&& 63), 128 ||| (n &&& 63)]
  else [240 ||| (n >>> 18), 128 ||| ((n >>> 12) &&& 63), 128 ||| ((n >>> 6) &&& 63), 128 ||| (n &&& 63)]

def utf8Bytes (s : String) : List Nat :=
  (s.data.map utf8EncodeChar).flatten

/-- `hashlib.sha256(s.encode("utf-8")).hexdigest()`. -/
def sha256hex (s : String) : String := sha256BytesHex (utf8Bytes s)

/-! ### JSON values and Python-compatible canonical serialization

`Json` models the JSON-representable values the repository serializes with
`json.dumps(obj, sort_keys=True, separators=(",", ":"))`: objects are
association lists carrying the caller's insertion order (Python dicts cannot
hold duplicate keys).  `canonicalJson true` models `ensure_ascii=True`
(the default, used by `mgtp/types.py` and `mgtp/evaluate_transition.py`);
`canonicalJson false` models `ensure_ascii=False`
(used by `commit_gate/canonicalise.py` and `mgtp/decision_record.py`). -/

inductive Json where
  | null : Json
  | bool (b : Bool) : Json
  | int (n : Int) : Json
  | str (s : String) : Json
  | arr (items : List Json) : Json
  | obj (entries : List (String × Json)) : Json

def hex4 (n : Nat) : List Char :=
  [hexDigit (n / 4096), hexDigit (n / 256), hexDigit (n / 16), hexDigit n]

/-- One character of a JSON string, escaped as `json.dumps` does. -/
def escapeChar (ascii : Bool) (c : Char) : List Char :=
  let n := c.toNat
  if c = '"' then ['\\', '"']
  else if c = '\\' then ['\\', '\\']
  else if n < 32 then
    match n with
    | 8 => ['\\', 'b']
    | 9 => ['\\', 't']
    | 10 => ['\\', 'n']
    | 12 => ['\\', 'f']
    | 13 => ['\\', 'r']
    | _ => '\\' :: 'u' :: hex4 n
  else if ascii ∧ 126 < n then
    if n < 65536 then '\\' :: 'u' :: hex4 n
    else
      ('\\' :: 'u' :: hex4 (55296 + (n - 65536) / 1024)) ++
      ('\\' :: 'u' :: hex4 (56320 + (n - 65536) % 1024))
  else [c]

/-- A JSON string literal: quotes around the escaped characters. -/
def jsonQuote (ascii : Bool) (s : String) : String :=
  String.mk ('"' :: (s.data.map (escapeChar ascii)).flatten ++ ['"'])

/-- Key order used by `sort_keys=True`: lexicographic on the key strings. -/
def keyLe (a b : String × Json) : Prop := a.1 ≤ b.1

instance : DecidableRel keyLe := fun a b => inferInstanceAs (Decidable (a.1 ≤ b.1))

def sortEntries (entries : List (String × Json)) : List (String × Json) :=
  List.insertionSort keyLe entries

/-- `json.dumps(v, sort_keys=True, separators=(",", ":"), ensure_ascii=ascii)`. -/
def canonicalJson (ascii : Bool) : Json → String
  | .null => "null"
  | .bool true => "true"
  | .bool false => "false"
  | .int n => toString n
  | .str s => jsonQuote ascii s
  | .arr items =>
      "[" ++ String.intercalate "," (items.attach.map (fun x => canonicalJson ascii x.1)) ++ "]"
  | .obj entries =>
      "\x7b" ++ String.intercalate ","
        ((sortEntries entries).attach.map
          (fun x => jsonQuote ascii x.1.1 ++ ":" ++ canonicalJson ascii x.1.2)) ++ "\x7d"
termination_by j => sizeOf j
decreasing_by
  · have hm := List.sizeOf_lt_of_mem x.2
    simp only [Json.arr.sizeOf_spec]
    omega
  · obtain ⟨⟨k, v⟩, hx⟩ := x
    rw [sortEntries, List.mem_insertionSort] at hx
    have hm := List.sizeOf_lt_of_mem hx
    simp only [Prod.mk.sizeOf_spec] at hm
    simp only [Json.obj.sizeOf_spec]
    omega

/-- `commit_gate.canonicalise.canonicalise` — canonical JSON bytes (here: the
string whose UTF-8 encoding is those bytes). -/
def canonicalise (v : Json) : String := canonicalJson false v

/-- `commit_gate.canonicalise.canonical_hash` — sha256 hex of canonical JSON. -/
def canonical_hash (v : Json) : String := sha256hex (canonicalise v)

/-! ### `authority_gate.py` — Evidence levels and the AuthorityGate -/

/-- `authority_gate.Evidence` — totally ordered evidence levels (IntEnum). -/
inductive Evidence where
  | NONE : Evidence
  | USER : Evidence
  | OWNER : Evidence
  | ADMIN : Evidence
deriving DecidableEq, Repr

def Evidence.toNat : Evidence → Nat
  | .NONE => 0
  | .USER => 1
  | .OWNER => 2
  | .ADMIN => 3

/-- `Evidence[name]` — member lookup by name (KeyError modelled as `none`). -/
def Evidence.ofName : String → Option Evidence
  | "NONE" => some .NONE
  | "USER" => some .USER
  | "OWNER" => some .OWNER
  | "ADMIN" => some .ADMIN
  | _ => none

/-- `authority_gate.Decision` — gate outcomes. -/
inductive Decision where
  | DENY : Decision
  | ALLOW : Decision
deriving DecidableEq, Repr

/-- `AuthorityGate(required).check(provided)`: ALLOW iff `provided >= required`.
The gate is a value object holding only `required`, so it is embedded as a
two-argument function. -/
def AuthorityGate.check (required provided : Evidence) : Decision :=
  if required.toNat ≤ provided.toNat then Decision.ALLOW else Decision.DENY

/-! ### `mgtp/types.py` — core MGTP data model -/

namespace Mgtp

inductive RiskClass where
  | LOW : RiskClass
  | MEDIUM : RiskClass
  | HIGH : RiskClass
  | CRITICAL : RiskClass
deriving DecidableEq, Repr

def RiskClass.value : RiskClass → String
  | .LOW => "LOW"
  | .MEDIUM => "MEDIUM"
  | .HIGH => "HIGH"
  | .CRITICAL => "CRITICAL"

inductive TransitionOutcome where
  | APPROVED : TransitionOutcome
  | REFUSED : TransitionOutcome
  | SUPERVISED : TransitionOutcome
deriving DecidableEq, Repr

def TransitionOutcome.value : TransitionOutcome → String
  | .APPROVED => "APPROVED"
  | .REFUSED => "REFUSED"
  | .SUPERVISED => "SUPERVISED"

structure TransitionRequest where
  transition_id : String
  risk_class : RiskClass
  irreversible : Bool
  resource_identifier : String
  trust_boundary_crossed : Bool
  override_token : Option String
  timestamp : String
deriving DecidableEq, Repr

structure AuthorityContext where
  actor_id : String
  authority_basis : String
  tenant_id : String
  provided_evidence : Option Evidence := none
deriving DecidableEq, Repr

/-- `mgtp.types.DecisionRecord` — the canonical MGTP decision record.
Five core fields, then the extended audit fields defaulting to `""`. -/
structure DecisionRecord where
  transition_id : String
  outcome : TransitionOutcome
  authority_basis : String
  risk_class : RiskClass
  reason : String
  actor_id : String := ""
  tenant_id : String := ""
  timestamp : String := ""
  gate_version : String := ""
  context_hash : String := ""
deriving DecidableEq, Repr

/-- `DecisionRecord.canonical_bytes` — `json.dumps` (default `ensure_ascii=True`)
of the explicitly enumerated five core fields, sorted keys, compact separators. -/
def DecisionRecord.canonical_bytes (r : DecisionRecord) : String :=
  canonicalJson true (Json.obj
    [("authority_basis", .str r.authority_basis),
     ("outcome", .str r.outcome.value),
     ("reason", .str r.reason),
     ("risk_class", .str r.risk_class.value),
     ("transition_id", .str r.transition_id)])

/-- `DecisionRecord.canonical_hash` — sha256 hex of `canonical_bytes`. -/
def DecisionRecord.canonical_hash (r : DecisionRecord) : String :=
  sha256hex r.canonical_bytes

/-- `DecisionRecord.content_hash` — alias for `canonical_hash`. -/
def DecisionRecord.content_hash (r : DecisionRecord) : String :=
  r.canonical_hash

/-! ### `mgtp/evaluate.py` — registry-less evaluator -/

/-- `mgtp.evaluate.evaluate`.  `ValueError` is modelled as `Except.error`. -/
def evaluate (request : TransitionRequest) (context : AuthorityContext) :
    Except String DecisionRecord :=
  match context.provided_evidence with
  | none => .error "provided_evidence is required for MGTP evaluation"
  | some provided =>
    match Evidence.ofName context.authority_basis with
    | none => .error "Unknown authority_basis"
    | some required =>
      if AuthorityGate.check required provided = Decision.DENY then
        .ok { transition_id := request.transition_id, outcome := .REFUSED,
              authority_basis := context.authority_basis, risk_class := request.risk_class,
              reason := "authority_insufficient" }
      else if request.irreversible ∧ request.risk_class = .CRITICAL then
        .ok { transition_id := request.transition_id, outcome := .SUPERVISED,
              authority_basis := context.authority_basis, risk_class := request.risk_class,
              reason := "critical_irreversible_supervised" }
      else
        .ok { transition_id := request.transition_id, outcome := .APPROVED,
              authority_basis := context.authority_basis, risk_class := request.risk_class,
              reason := "authority_sufficient" }

/-! ### `mgtp/evaluate_transition.py` — registry-based wrapper -/

/-- The registry entry fields read by `evaluate_transition`: the loader
(`mgtp/registry.py`) guarantees `required_authority` is present; `gate_version`
is read with `entry.get("gate_version", "")`. -/
structure RegistryEntry where
  required_authority : String
  gate_version : String := ""
deriving DecidableEq, Repr

/-- `mgtp.evaluate_transition._context_hash` — sha256 over the canonical
JSON of the fixed ten-field payload (default `ensure_ascii=True`). -/
def contextHash (request : TransitionRequest) (context : AuthorityContext) : String :=
  sha256hex (canonicalJson true (Json.obj
    [("actor_id", .str context.actor_id),
     ("authority_basis", .str context.authority_basis),
     ("irreversible", .bool request.irreversible),
     ("override_token", match request.override_token with | none => .null | some t => .str t),
     ("resource_identifier", .str request.resource_identifier),
     ("risk_class", .str request.risk_class.value),
     ("tenant_id", .str context.tenant_id),
     ("timestamp", .str request.timestamp),
     ("transition_id", .str request.transition_id),
     ("trust_boundary_crossed", .bool request.trust_boundary_crossed)]))

/-- `mgtp.evaluate_transition.evaluate_transition`.  The registry dict is an
association list keyed by transition id; an invalid `authority_basis`
(`KeyError` from `Evidence[...]`) is modelled as `Except.error`. -/
def evaluate_transition (request : TransitionRequest) (context : AuthorityContext)
    (registry : List (String × RegistryEntry)) : Except String DecisionRecord :=
  let ctx_hash := contextHash request context
  match registry.lookup request.transition_id with
  | none =>
      .ok { transition_id := request.transition_id, outcome := .REFUSED,
            authority_basis := context.authority_basis, risk_class := request.risk_class,
            reason := "transition_not_registered", actor_id := context.actor_id,
            tenant_id := context.tenant_id, timestamp := request.timestamp,
            context_hash := ctx_hash }
  | some entry =>
    match Evidence.ofName context.authority_basis with
    | none => .error "KeyError: authority_basis is not an Evidence member"
    | some prov =>
      let eval_context : AuthorityContext :=
        { actor_id := context.actor_id, authority_basis := entry.required_authority,
          tenant_id := context.tenant_id, provided_evidence := some prov }
      match evaluate request eval_context with
      | .error e => .error e
      | .ok gate_result =>
          .ok { transition_id := gate_result.transition_id, outcome := gate_result.outcome,
                authority_basis := context.authority_basis, risk_class := gate_result.risk_class,
                reason := gate_result.reason, actor_id := context.actor_id,
                tenant_id := context.tenant_id, timestamp := request.timestamp,
                gate_version := entry.gate_version, context_hash := ctx_hash }

end Mgtp

/-! ### Timestamps

The time-bounded evaluators compare caller-supplied RFC3339/ISO-8601 UTC
timestamp strings after parsing (`datetime.fromisoformat` in
`mgtp/decision_record.py`, `datetime.strptime(.., "%Y-%m-%dT%H:%M:%SZ")` in
`mgtp/evaluator.py`).  A parsed timestamp is embedded as its signed count of
seconds since 1970-01-01T00:00:00Z, computed with the standard civil-calendar
day-number formula; the parsers accept the UTC profile the repository uses
(`YYYY-MM-DDTHH:MM:SS` plus `Z`/`+00:00`/nothing for `fromisoformat`, a
mandatory trailing `Z` for `strptime`) and reject anything else, which models
`ValueError` on malformed input. -/

def isLeapYear (y : Nat) : Bool :=
  (y % 4 = 0 ∧ y % 100 ≠ 0) ∨ y % 400 = 0

def daysInMonth (y m : Nat) : Nat :=
  if m = 2 then (if isLeapYear y then 29 else 28)
  else if m = 4 ∨ m = 6 ∨ m = 9 ∨ m = 11 then 30
  else 31

/-- Days from 1970-01-01 to year `y`, month `m`, day `d` (proleptic Gregorian). -/
def daysFromCivil (y m d : Int) : Int :=
  let y' := y - (if m ≤ 2 then 1 else 0)
  let era := y' / 400
  let yoe := y' - era * 400
  let doy := (153 * (m + (if 2 < m then -3 else 9)) + 2) / 5 + d - 1
  let doe := yoe * 365 + yoe / 4 - yoe / 100 + doy
  era * 146097 + doe - 719468

def charDigit (c : Char) : Option Nat :=
  if c.isDigit then some (c.toNat - 48) else none

def digits2 (a b : Char) : Option Nat := do
  let x ← charDigit a
  let y ← charDigit b
  pure (10 * x + y)

def digits4 (a b c d : Char) : Option Nat := do
  let x ← digits2 a b
  let y ← digits2 c d
  pure (100 * x + y)

/-- Parse the 19 characters `YYYY-MM-DDTHH:MM:SS`, validating field ranges as
Python's datetime constructor does, to seconds since the epoch. -/
def parseCivil : List Char → Option Int
  | [y1, y2, y3, y4, '-', m1, m2, '-', d1, d2, 'T', h1, h2, ':', i1, i2, ':', s1, s2] => do
    let y ← digits4 y1 y2 y3 y4
    let m ← digits2 m1 m2
    let d ← digits2 d1 d2
    let h ← digits2 h1 h2
    let i ← digits2 i1 i2
    let s ← digits2 s1 s2
    if 1 ≤ y ∧ 1 ≤ m ∧ m ≤ 12 ∧ 1 ≤ d ∧ d ≤ daysInMonth y m ∧ h ≤ 23 ∧ i ≤ 59 ∧ s ≤ 59 then
      pure (daysFromCivil y m d * 86400 + h * 3600 + i * 60 + s)
    else none
  | _ => none

/-- `mgtp.decision_record._parse_rfc3339`: `fromisoformat` after replacing
`"Z"` with `"+00:00"`; the UTC profile used by the repository. -/
def parseRFC3339 (ts : String) : Option Int :=
  let cs := ts.data
  if cs.length = 19 then parseCivil cs
  else if cs.length = 20 ∧ cs.getLast? = some 'Z' then parseCivil (cs.take 19)
  else if cs.length = 25 ∧ cs.drop 19 = ['+', '0', '0', ':', '0', '0'] then parseCivil (cs.take 19)
  else none

/-- `mgtp.evaluator._parse_utc`: strict `%Y-%m-%dT%H:%M:%SZ`. -/
def parseUTCz (ts : String) : Option Int :=
  let cs := ts.data
  if cs.length = 20 ∧ cs.getLast? = some 'Z' then parseCivil (cs.take 19) else none

def sortStrings (l : List String) : List String :=
  List.insertionSort (fun a b : String => a ≤ b) l

/-! ### `mgtp/decision_record.py` — time-bounded, evidenced decision artefact -/

namespace DecisionRecordMod

/-- Modelled from the spec: `EvidenceRef` is imported by
`mgtp/decision_record.py` from `mgtp.types` but is absent from the provided
sources; per the record docstring and its serialization it is a pair of
`ref_id` and `description` strings. -/
structure EvidenceRef where
  ref_id : String
  description : String
deriving DecidableEq, Repr

/-- Modelled from the spec: the `Verdict` enum is imported by
`mgtp/decision_record.py` from `mgtp.types` but is absent from the provided
sources; per §1 of the spec and the record docstring its members are
ALLOW, REFUSE and SUPERVISED with those strings as values. -/
inductive Verdict where
  | ALLOW : Verdict
  | REFUSE : Verdict
  | SUPERVISED : Verdict
deriving DecidableEq, Repr

def Verdict.value : Verdict → String
  | .ALLOW => "ALLOW"
  | .REFUSE => "REFUSE"
  | .SUPERVISED => "SUPERVISED"

def OUTSIDE_WINDOW_REASON : String := "outside_authority_window"

def EVIDENCE_MISSING_REASON : String := "evidence_missing"

/-- `mgtp.decision_record.DecisionRecord` — immutable decision artefact
(tuples embedded as lists). -/
structure DecisionRecord where
  record_id : String
  decision_time : String
  authority_window_start : String
  authority_window_end : String
  verdict : String
  reason_codes : List String
  provided_evidence : Option (List EvidenceRef)
deriving DecidableEq, Repr

def sortEvidence (l : List EvidenceRef) : List EvidenceRef :=
  List.insertionSort (fun a b : EvidenceRef => a.ref_id ≤ b.ref_id) l

/-- `mgtp.decision_record.evaluate` — build a DecisionRecord, applying the
two fail-closed rules in order; unparseable timestamps (`ValueError`) are
modelled as `Except.error`. -/
def evaluate (record_id decision_time authority_window_start authority_window_end : String)
    (requested_verdict : String) (reason_codes : List String)
    (provided_evidence : Option (List EvidenceRef)) : Except String DecisionRecord :=
  match parseRFC3339 decision_time, parseRFC3339 authority_window_start,
        parseRFC3339 authority_window_end with
  | some dt, some window_start, some window_end =>
    let vc1 : String × List String :=
      if ¬ (window_start ≤ dt ∧ dt ≤ window_end) then
        (Verdict.REFUSE.value,
         if OUTSIDE_WINDOW_REASON ∈ reason_codes then reason_codes
         else reason_codes ++ [OUTSIDE_WINDOW_REASON])
      else (requested_verdict, reason_codes)
    let vc2 : String × List String :=
      if vc1.1 = Verdict.ALLOW.value ∧ provided_evidence = none then
        (Verdict.REFUSE.value,
         if EVIDENCE_MISSING_REASON ∈ vc1.2 then vc1.2 else vc1.2 ++ [EVIDENCE_MISSING_REASON])
      else vc1
    let evidence_tuple := provided_evidence.map sortEvidence
    .ok { record_id := record_id, decision_time := decision_time,
          authority_window_start := authority_window_start,
          authority_window_end := authority_window_end, verdict := vc2.1,
          reason_codes := sortStrings vc2.2, provided_evidence := evidence_tuple }
  | _, _, _ => .error "ValueError: invalid isoformat string"

end DecisionRecordMod

/-! ### `mgtp/evaluator.py` — second time-bounded path -/

namespace Evaluator

def AUTHORITY_WINDOW_SECONDS : Nat := 3600

/-- The record shape `mgtp.evaluator.evaluate` builds: it passes
`transition_id`, `verdict`, `reasons`, `decision_time` and `authority_basis`
keyword arguments.  (Those keywords do not match the fields of
`mgtp.types.DecisionRecord`, one of the divergent record shapes §9 of the
spec notes; the embedding records the values the function supplies.) -/
structure EvaluatorRecord where
  transition_id : String
  verdict : Mgtp.TransitionOutcome
  reasons : List String
  decision_time : String
  authority_basis : String
deriving DecidableEq, Repr

/-- `mgtp.evaluator._within_authority_window` (parse failures propagate as
`ValueError`, modelled by `none`). -/
def withinAuthorityWindow (request_ts decision_ts : String) (window_seconds : Nat) :
    Option Bool := do
  let req ← parseUTCz request_ts
  let dec ← parseUTCz decision_ts
  pure (decide (0 ≤ dec - req ∧ dec - req ≤ (window_seconds : Int)))

/-- `mgtp.evaluator.evaluate` — fail-closed verdict resolver. -/
def evaluate (request : Mgtp.TransitionRequest) (context : Mgtp.AuthorityContext)
    (provided_evidence : Option Evidence) (decision_time : String)
    (authority_window_seconds : Nat := AUTHORITY_WINDOW_SECONDS) :
    Except String EvaluatorRecord :=
  match withinAuthorityWindow request.timestamp decision_time authority_window_seconds with
  | none => .error "Timestamp must be ISO-8601 UTC (YYYY-MM-DDTHH:MM:SSZ)"
  | some within =>
    if ¬ within then
      .ok { transition_id := request.transition_id, verdict := .REFUSED,
            reasons := ["decision_time_outside_authority_window"],
            decision_time := decision_time, authority_basis := context.authority_basis }
    else
      match provided_evidence with
      | none =>
          .ok { transition_id := request.transition_id, verdict := .REFUSED,
                reasons := ["missing_evidence"], decision_time := decision_time,
                authority_basis := context.authority_basis }
      | some provided =>
        match Evidence.ofName context.authority_basis with
        | none =>
            .ok { transition_id := request.transition_id, verdict := .REFUSED,
                  reasons := ["unknown_authority_basis"], decision_time := decision_time,
                  authority_basis := context.authority_basis }
        | some required =>
          if AuthorityGate.check required provided = Decision.DENY then
            .ok { transition_id := request.transition_id, verdict := .REFUSED,
                  reasons := ["insufficient_evidence"], decision_time := decision_time,
                  authority_basis := context.authority_basis }
          else if request.irreversible ∨ request.trust_boundary_crossed then
            .ok { transition_id := request.transition_id, verdict := .SUPERVISED,
                  reasons := ["irreversible_or_trust_boundary"], decision_time := decision_time,
                  authority_basis := context.authority_basis }
          else
            .ok { transition_id := request.transition_id, verdict := .APPROVED,
                  reasons := ["evidence_sufficient"], decision_time := decision_time,
                  authority_basis := context.authority_basis }

end Evaluator

/-! ### `commit_gate/engine.py` — rule resolver -/

namespace CommitGate

def ARTEFACT_VERSION : String := "0.1"

/-- A raw rule dict: absent `actor_id`/`action_class` (`rule.get(...) is None`)
acts as a wildcard; `scope_match` defaults to the empty mapping. -/
structure Rule where
  actor_id : Option String := none
  action_class : Option String := none
  scope_match : List (String × String) := []
deriving DecidableEq, Repr

/-- `ruleset.get("allowlist"/"denylist"/"escalation", [])`. -/
structure Ruleset where
  allowlist : List Rule := []
  denylist : List Rule := []
  escalation : List Rule := []
deriving DecidableEq, Repr

/-- `commit_gate.engine._scope_matches` — every key of `rule_scope` present in
`request_scope` with an identical value.  Scope dicts are association lists
(first binding wins on lookup, as a Python dict has unique keys). -/
def scope_matches (rule_scope request_scope : List (String × String)) : Bool :=
  rule_scope.all (fun kv => decide (request_scope.lookup kv.1 = some kv.2))

/-- `commit_gate.engine._find_match` — true iff some rule matches; the source's
continue-based loop is the disjunct-wise conjunction below. -/
def find_match (rules_list : List Rule) (actor_id action_class : String)
    (authority_scope : List (String × String)) : Bool :=
  rules_list.any (fun rule =>
    (match rule.actor_id with | some a => a == actor_id | none => true) &&
    (match rule.action_class with | some a => a == action_class | none => true) &&
    scope_matches rule.scope_match authority_scope)

/-- A commit request dict: the fields `evaluate` reads, plus the optional
caller-supplied `timestamp_utc` that it never reads. -/
structure CommitRequest where
  actor_id : String
  action_class : String
  context : Json
  authority_scope : List (String × String)
  invariant_hash : String
  timestamp_utc : Option String := none

/-- `commit_gate.engine.build_request_obj` — canonical request object,
excluding any timestamp. -/
def build_request_obj (actor_id action_class : String) (context : Json)
    (authority_scope : List (String × String)) (invariant_hash : String) : Json :=
  Json.obj
    [("actor_id", .str actor_id),
     ("action_class", .str action_class),
     ("context", context),
     ("authority_scope", Json.obj (authority_scope.map (fun kv => (kv.1, Json.str kv.2)))),
     ("invariant_hash", .str invariant_hash)]

structure CommitVerdict where
  verdict : String
  reasons : List String
  decision_hash : String
  request_hash : String
  artefact_version : String
deriving Repr

/-- `commit_gate.engine.evaluate` — deterministic verdict resolution:
deny, then allow, then escalate, then default REFUSE. -/
def evaluate (commit_request : CommitRequest) (ruleset : Ruleset) : CommitVerdict :=
  let actor_id := commit_request.actor_id
  let action_class := commit_request.action_class
  let authority_scope := commit_request.authority_scope
  let request_obj := build_request_obj actor_id action_class commit_request.context
    authority_scope commit_request.invariant_hash
  let request_hash := canonical_hash request_obj
  let vr : String × List String :=
    if find_match ruleset.denylist actor_id action_class authority_scope then
      ("REFUSE", ["denylist_match"])
    else if find_match ruleset.allowlist actor_id action_class authority_scope then
      ("ALLOW", ["allowlist_match"])
    else if find_match ruleset.escalation actor_id action_class authority_scope then
      ("ESCALATE", ["escalation_match"])
    else
      ("REFUSE", ["default_refuse"])
  let reasons := sortStrings vr.2
  let decision_obj := Json.obj
    [("request", request_obj), ("verdict", .str vr.1), ("reasons", .arr (reasons.map .str))]
  { verdict := vr.1, reasons := reasons, decision_hash := canonical_hash decision_obj,
    request_hash := request_hash, artefact_version := ARTEFACT_VERSION }

end CommitGate

/-! ### `commit_gate/drift.py` — authority drift detector -/

namespace Drift

/-- An authority graph: `mapping<actor_id, list of action_class>`. -/
def Graph := List (String × List String)

/-- `commit_gate.drift._edges_set` — the set of `(actor, action)` pairs,
as a duplicate-free list. -/
def edges_set (graph : Graph) : List (String × String) :=
  ((graph.map (fun av => av.2.map (fun action => (av.1, action)))).flatten).dedup

/-- Lexicographic order on edges, as Python's `sorted` orders string pairs. -/
def pairLe (a b : String × String) : Prop :=
  a.1 < b.1 ∨ (a.1 = b.1 ∧ a.2 ≤ b.2)

instance : DecidableRel pairLe := fun a b =>
  inferInstanceAs (Decidable (a.1 < b.1 ∨ (a.1 = b.1 ∧ a.2 ≤ b.2)))

def sortPairs (l : List (String × String)) : List (String × String) :=
  List.insertionSort pairLe l

/-- `sorted(current_edges - baseline_edges)` in `detect_drift`. -/
def addedEdges (baseline_edges current_edges : List (String × String)) :
    List (String × String) :=
  sortPairs (current_edges.filter (fun e => decide (e ∉ baseline_edges)))

/-- `sorted(baseline_edges - current_edges)` in `detect_drift`. -/
def removedEdges (baseline_edges current_edges : List (String × String)) :
    List (String × String) :=
  sortPairs (baseline_edges.filter (fun e => decide (e ∉ current_edges)))

structure DriftResult where
  pass : Bool
  added_edges : List (String × String)
  removed_edges : List (String × String)
  reason : String
deriving DecidableEq, Repr

/-- `commit_gate.drift.detect_drift` — compare baseline vs current authority
graph; `added`/`removed` are the sorted set differences. -/
def detect_drift (baseline_graph current_graph : Graph)
    (baseline_invariant_hash current_invariant_hash : String)
    (acknowledge_expansion : Bool := false) : DriftResult :=
  let baseline_edges := edges_set baseline_graph
  let current_edges := edges_set current_graph
  let added := addedEdges baseline_edges current_edges
  let removed := removedEdges baseline_edges current_edges
  if added = [] then
    { pass := true, added_edges := [], removed_edges := removed, reason := "no_expansion" }
  else if baseline_invariant_hash = current_invariant_hash then
    { pass := false, added_edges := added, removed_edges := removed,
      reason := "reachability_expansion_without_contract_revision" }
  else if acknowledge_expansion then
    { pass := true, added_edges := added, removed_edges := removed,
      reason := "expansion_acknowledged_with_contract_revision" }
  else
    { pass := false, added_edges := added, removed_edges := removed,
      reason := "expansion_with_contract_revision_but_not_acknowledged" }

end Drift

/-! ### Order instances and general lemmas used by the verification -/

instance : IsTotal (String × Json) keyLe := ⟨fun a b => le_total a.1 b.1⟩

instance : IsTrans (String × Json) keyLe := ⟨fun _ _ _ h1 h2 => le_trans h1 h2⟩

/-- Strict key order on object entries. -/
def keyLt (a b : String × Json) : Prop := a.1 < b.1

instance : IsAntisymm (String × Json) keyLt :=
  ⟨fun _ _ h1 h2 => absurd h2 (lt_asymm h1)⟩

instance : IsTotal (String × String) Drift.pairLe := by
  refine ⟨fun a b => ?_⟩
  rcases lt_trichotomy a.1 b.1 with h | h | h
  · exact Or.inl (Or.inl h)
  · rcases le_total a.2 b.2 with h2 | h2
    · exact Or.inl (Or.inr ⟨h, h2⟩)
    · exact Or.inr (Or.inr ⟨h.symm, h2⟩)
  · exact Or.inr (Or.inl h)

instance : IsTrans (String × String) Drift.pairLe := by
  refine ⟨fun a b c h1 h2 => ?_⟩
  rcases h1 with h1 | ⟨h1, h1'⟩
  · rcases h2 with h2 | ⟨h2, _⟩
    · exact Or.inl (lt_trans h1 h2)
    · exact Or.inl (h2 ▸ h1)
  · rcases h2 with h2 | ⟨h2, h2'⟩
    · exact Or.inl (h1 ▸ h2)
    · exact Or.inr ⟨h1.trans h2, le_trans h1' h2'⟩

lemma mem_sortStrings {a : String} {l : List String} : a ∈ sortStrings l ↔ a ∈ l :=
  List.mem_insertionSort _

lemma mem_sortPairs {a : String × String} {l : List (String × String)} :
    a ∈ Drift.sortPairs l ↔ a ∈ l :=
  List.mem_insertionSort _

lemma sortPairs_eq_nil {l : List (String × String)} : Drift.sortPairs l = [] ↔ l = [] := by
  constructor
  · intro h
    have hp := List.perm_insertionSort Drift.pairLe l
    rw [Drift.sortPairs] at h
    rw [h] at hp
    exact hp.symm.eq_nil
  · intro h
    rw [h]
    rfl

lemma hexDigit_mem (n : Nat) : hexDigit n ∈ hexCharList := by
  have h : n % 16 < hexCharList.length := by
    have h16 : hexCharList.length = 16 := rfl
    rw [h16]
    exact Nat.mod_lt _ (by norm_num)
  rw [hexDigit, List.getD_eq_getElem _ _ h]
  exact List.getElem_mem h

lemma hexWord32_mem {ch : Char} (w : Nat) (h : ch ∈ hexWord32 w) : ch ∈ hexCharList := by
  rw [hexWord32] at h
  simp only [List.mem_cons, List.not_mem_nil, or_false] at h
  rcases h with h | h | h | h | h | h | h | h <;> (subst h; exact hexDigit_mem _)

lemma sha256hex_hexdigest (s : String) :
    (sha256hex s).length = 64 ∧ ∀ ch ∈ (sha256hex s).data, ch ∈ hexCharList := by
  rw [sha256hex, sha256BytesHex]
  constructor
  · rw [String.length_mk]
    simp [sha256StateHex, hexWord32]
  · intro ch hch
    simp only [String.data] at hch
    rw [sha256StateHex] at hch
    simp only [List.mem_append] at hch
    rcases hch with ((((((h | h) | h) | h) | h) | h) | h) | h <;> exact hexWord32_mem _ h

lemma attach_map_fn {α β : Type _} (l : List α) (f : α → β) :
    l.attach.map (fun x => f x.1) = l.map f := by
  simp

lemma canonicalJson_arr (ascii : Bool) (items : List Json) :
    canonicalJson ascii (Json.arr items) =
      "[" ++ String.intercalate "," (items.map (canonicalJson ascii)) ++ "]" := by
  rw [canonicalJson]
  rw [attach_map_fn items (canonicalJson ascii)]

lemma canonicalJson_obj (ascii : Bool) (entries : List (String × Json)) :
    canonicalJson ascii (Json.obj entries) =
      "\x7b" ++ String.intercalate ","
        ((sortEntries entries).map
          (fun kv => jsonQuote ascii kv.1 ++ ":" ++ canonicalJson ascii kv.2)) ++ "\x7d" := by
  rw [canonicalJson]
  rw [attach_map_fn (sortEntries entries)
    (fun kv => jsonQuote ascii kv.1 ++ ":" ++ canonicalJson ascii kv.2)]

/-- Permutation-equivalent objects with duplicate-free keys sort identically. -/
lemma sortEntries_eq_of_perm {kvs1 kvs2 : List (String × Json)}
    (hperm : kvs1.Perm kvs2) (hnd : (kvs1.map Prod.fst).Nodup) :
    sortEntries kvs1 = sortEntries kvs2 := by
  have hnd2 : (kvs2.map Prod.fst).Nodup := ((hperm.map Prod.fst).nodup_iff).mp hnd
  have hstrict : ∀ (l : List (String × Json)), (l.map Prod.fst).Nodup →
      List.Sorted keyLt (sortEntries l) := by
    intro l hl
    have hsorted : List.Sorted keyLe (sortEntries l) := List.sorted_insertionSort keyLe l
    have hlnd : ((sortEntries l).map Prod.fst).Nodup :=
      (((List.perm_insertionSort keyLe l).map Prod.fst).nodup_iff).mpr hl
    have hne : List.Pairwise (fun a b : String × Json => a.1 ≠ b.1) (sortEntries l) :=
      List.pairwise_map.mp hlnd
    exact (List.Pairwise.and hsorted hne).imp (fun h => lt_of_le_of_ne h.1 h.2)
  have hp : (sortEntries kvs1).Perm (sortEntries kvs2) :=
    (List.perm_insertionSort keyLe kvs1).trans
      (hperm.trans (List.perm_insertionSort keyLe kvs2).symm)
  exact List.eq_of_perm_of_sorted hp (hstrict kvs1 hnd) (hstrict kvs2 hnd2)

/-! ### Claims -/

/-- C7: any two `mgtp.types.DecisionRecord` values that agree on the five core
fields `transition_id`, `outcome`, `authority_basis`, `risk_class` and `reason`
have byte-identical `canonical_bytes` and equal `content_hash`/`canonical_hash`,
for arbitrary values of the extended audit fields `actor_id`, `tenant_id`,
`timestamp`, `gate_version` and `context_hash`: the content hash does not cover
the extended audit fields. -/
theorem C7_content_hash_excludes_audit_fields
    (tid : String) (outc : Mgtp.TransitionOutcome) (basis : String)
    (risk : Mgtp.RiskClass) (reason a1 t1 ts1 g1 c1 a2 t2 ts2 g2 c2 : String) :
    (Mgtp.DecisionRecord.mk tid outc basis risk reason a1 t1 ts1 g1 c1).canonical_bytes =
      (Mgtp.DecisionRecord.mk tid outc basis risk reason a2 t2 ts2 g2 c2).canonical_bytes ∧
    (Mgtp.DecisionRecord.mk tid outc basis risk reason a1 t1 ts1 g1 c1).content_hash =
      (Mgtp.DecisionRecord.mk tid outc basis risk reason a2 t2 ts2 g2 c2).content_hash ∧
    (Mgtp.DecisionRecord.mk tid outc basis risk reason a1 t1 ts1 g1 c1).canonical_hash =
      (Mgtp.DecisionRecord.mk tid outc basis risk reason a2 t2 ts2 g2 c2).canonical_hash :=
  ⟨rfl, rfl, rfl⟩

/-- C9: two commit requests that differ only in their caller-supplied
`timestamp_utc` produce identical `commit_gate.engine.evaluate` outputs under
any ruleset — the same `request_hash`, `verdict`, `reasons` and
`decision_hash` — because the hashed request object is built from `actor_id`,
`action_class`, `context`, `authority_scope` and `invariant_hash` only. -/
theorem C9_timestamp_independence
    (actor_id action_class : String) (context : Json)
    (authority_scope : List (String × String)) (invariant_hash : String)
    (t1 t2 : Option String) (rs : CommitGate.Ruleset) :
    CommitGate.evaluate ⟨actor_id, action_class, context, authority_scope, invariant_hash, t1⟩ rs =
      CommitGate.evaluate ⟨actor_id, action_class, context, authority_scope, invariant_hash, t2⟩ rs :=
  rfl

/-- C10: `AuthorityGate(required).check(provided)` is ALLOW exactly when
`provided >= required` (DENY otherwise), and is therefore monotone in the
provided level: raising the provided evidence never turns an ALLOW into a
DENY. -/
theorem C10_evidence_gate_monotonicity :
    (∀ required provided : Evidence,
      (AuthorityGate.check required provided = Decision.ALLOW ↔
        required.toNat ≤ provided.toNat) ∧
      (AuthorityGate.check required provided = Decision.DENY ↔
        ¬ required.toNat ≤ provided.toNat)) ∧
    (∀ required p1 p2 : Evidence,
      AuthorityGate.check required p1 = Decision.ALLOW → p1.toNat ≤ p2.toNat →
      AuthorityGate.check required p2 = Decision.ALLOW) := by
  constructor
  · intro required provided
    rw [AuthorityGate.check]
    by_cases h : required.toNat ≤ provided.toNat <;> simp [h]
  · intro required p1 p2 h1 hle
    have hr : required.toNat ≤ p1.toNat := by
      by_contra hc
      rw [AuthorityGate.check, if_neg hc] at h1
      simp at h1
    rw [AuthorityGate.check, if_pos (le_trans hr hle)]

theorem C10_evidence_gate_monotonicity_witness :
    AuthorityGate.check Evidence.USER Evidence.OWNER = Decision.ALLOW ∧
    Evidence.OWNER.toNat ≤ Evidence.ADMIN.toNat ∧
    AuthorityGate.check Evidence.USER Evidence.ADMIN = Decision.ALLOW :=
  ⟨by decide, by decide,
   C10_evidence_gate_monotonicity.2 Evidence.USER Evidence.OWNER Evidence.ADMIN
     (by decide) (by decide)⟩

/-- C8: `canonicalise` is a deterministic function of structural content —
objects with the same key-to-value content in a different insertion order
yield byte-identical output; arrays are serialized in caller order; and
`canonical_hash` is the lowercase hex SHA-256 digest of exactly those bytes
(64 lowercase hex characters). -/
theorem C8_canonicalisation :
    (∀ kvs1 kvs2 : List (String × Json), kvs1.Perm kvs2 → (kvs1.map Prod.fst).Nodup →
      canonicalise (Json.obj kvs1) = canonicalise (Json.obj kvs2)) ∧
    (∀ items : List Json,
      canonicalise (Json.arr items) =
        "[" ++ String.intercalate "," (items.map canonicalise) ++ "]") ∧
    (∀ v : Json, canonical_hash v = sha256hex (canonicalise v)) ∧
    (∀ v : Json, (canonical_hash v).length = 64 ∧
      ∀ ch ∈ (canonical_hash v).data, ch ∈ hexCharList) := by
  refine ⟨?_, ?_, ?_, ?_⟩
  · intro kvs1 kvs2 hperm hnd
    rw [canonicalise, canonicalise, canonicalJson_obj, canonicalJson_obj,
        sortEntries_eq_of_perm hperm hnd]
  · intro items
    rw [canonicalise, canonicalJson_arr]
    rfl
  · intro v
    rfl
  · intro v
    exact sha256hex_hexdigest _

theorem C8_canonicalisation_witness :
    ([("b", Json.int 1), ("a", Json.int 2)] : List (String × Json)).Perm
      [("a", Json.int 2), ("b", Json.int 1)] ∧
    (([("b", Json.int 1), ("a", Json.int 2)] : List (String × Json)).map Prod.fst).Nodup ∧
    canonicalise (Json.obj [("b", Json.int 1), ("a", Json.int 2)]) =
      canonicalise (Json.obj [("a", Json.int 2), ("b", Json.int 1)]) :=
  ⟨List.Perm.swap ("a", Json.int 2) ("b", Json.int 1) [], by decide,
   C8_canonicalisation.1 _ _ (List.Perm.swap ("a", Json.int 2) ("b", Json.int 1) []) (by decide)⟩

lemma optMatch_eq (o : Option String) (x : String) :
    ((match o with | some a => a == x | none => true) = true) ↔
      (o = none ∨ o = some x) := by
  cases o <;> simp

/-- C5: `commit_gate.engine.evaluate` resolves in fixed priority order with the
first match winning: denylist beats allowlist beats escalation beats the
fail-closed default, with the matching reason attached; in particular a
request matching both an allow rule and a deny rule resolves
REFUSE/denylist_match. -/
theorem C5_rule_priority (cr : CommitGate.CommitRequest) (rs : CommitGate.Ruleset) :
    (CommitGate.find_match rs.denylist cr.actor_id cr.action_class cr.authority_scope = true →
      (CommitGate.evaluate cr rs).verdict = "REFUSE" ∧
      (CommitGate.evaluate cr rs).reasons = ["denylist_match"]) ∧
    (CommitGate.find_match rs.denylist cr.actor_id cr.action_class cr.authority_scope = false →
      CommitGate.find_match rs.allowlist cr.actor_id cr.action_class cr.authority_scope = true →
      (CommitGate.evaluate cr rs).verdict = "ALLOW" ∧
      (CommitGate.evaluate cr rs).reasons = ["allowlist_match"]) ∧
    (CommitGate.find_match rs.denylist cr.actor_id cr.action_class cr.authority_scope = false →
      CommitGate.find_match rs.allowlist cr.actor_id cr.action_class cr.authority_scope = false →
      CommitGate.find_match rs.escalation cr.actor_id cr.action_class cr.authority_scope = true →
      (CommitGate.evaluate cr rs).verdict = "ESCALATE" ∧
      (CommitGate.evaluate cr rs).reasons = ["escalation_match"]) ∧
    (CommitGate.find_match rs.denylist cr.actor_id cr.action_class cr.authority_scope = false →
      CommitGate.find_match rs.allowlist cr.actor_id cr.action_class cr.authority_scope = false →
      CommitGate.find_match rs.escalation cr.actor_id cr.action_class cr.authority_scope = false →
      (CommitGate.evaluate cr rs).verdict = "REFUSE" ∧
      (CommitGate.evaluate cr rs).reasons = ["default_refuse"]) := by
  refine ⟨?_, ?_, ?_, ?_⟩
  · intro h1
    constructor <;>
      simp [CommitGate.evaluate, h1, sortStrings, List.insertionSort, List.orderedInsert]
  · intro h1 h2
    constructor <;>
      simp [CommitGate.evaluate, h1, h2, sortStrings, List.insertionSort, List.orderedInsert]
  · intro h1 h2 h3
    constructor <;>
      simp [CommitGate.evaluate, h1, h2, h3, sortStrings, List.insertionSort, List.orderedInsert]
  · intro h1 h2 h3
    constructor <;>
      simp [CommitGate.evaluate, h1, h2, h3, sortStrings, List.insertionSort, List.orderedInsert]

theorem C5_rule_priority_witness :
    CommitGate.find_match
      [{ actor_id := some "alice", action_class := some "DEPLOY" }]
      "alice" "DEPLOY" [("env", "prod")] = true ∧
    (CommitGate.evaluate
      { actor_id := "alice", action_class := "DEPLOY", context := Json.null,
        authority_scope := [("env", "prod")], invariant_hash := "ih" }
      { allowlist := [{ actor_id := some "alice", action_class := some "DEPLOY" }],
        denylist := [{ actor_id := some "alice", action_class := some "DEPLOY" }],
        escalation := [] }).verdict = "REFUSE" ∧
    (CommitGate.evaluate
      { actor_id := "alice", action_class := "DEPLOY", context := Json.null,
        authority_scope := [("env", "prod")], invariant_hash := "ih" }
      { allowlist := [{ actor_id := some "alice", action_class := some "DEPLOY" }],
        denylist := [{ actor_id := some "alice", action_class := some "DEPLOY" }],
        escalation := [] }).reasons = ["denylist_match"] :=
  ⟨by decide,
   ((C5_rule_priority
      { actor_id := "alice", action_class := "DEPLOY", context := Json.null,
        authority_scope := [("env", "prod")], invariant_hash := "ih" }
      { allowlist := [{ actor_id := some "alice", action_class := some "DEPLOY" }],
        denylist := [{ actor_id := some "alice", action_class := some "DEPLOY" }],
        escalation := [] }).1 (by decide)).1,
   ((C5_rule_priority
      { actor_id := "alice", action_class := "DEPLOY", context := Json.null,
        authority_scope := [("env", "prod")], invariant_hash := "ih" }
      { allowlist := [{ actor_id := some "alice", action_class := some "DEPLOY" }],
        denylist := [{ actor_id := some "alice", action_class := some "DEPLOY" }],
        escalation := [] }).1 (by decide)).2⟩

/-- C6: a rule matches a request iff its `actor_id` is absent or equal, its
`action_class` is absent or equal, and every key of its `scope_match` is
present in the request's `authority_scope` with an identical value; a scope
that answers every lookup a smaller scope answers keeps every rule match, so
requests carrying extra unconstrained scope keys still match. -/
theorem C6_rule_matching :
    (∀ (rules : List CommitGate.Rule) (actor action : String)
       (scope : List (String × String)),
      CommitGate.find_match rules actor action scope = true ↔
        ∃ rule, rule ∈ rules ∧
          (rule.actor_id = none ∨ rule.actor_id = some actor) ∧
          (rule.action_class = none ∨ rule.action_class = some action) ∧
          ∀ kv ∈ rule.scope_match, scope.lookup kv.1 = some kv.2) ∧
    (∀ (rule_scope req req' : List (String × String)),
      (∀ k v, req.lookup k = some v → req'.lookup k = some v) →
      CommitGate.scope_matches rule_scope req = true →
      CommitGate.scope_matches rule_scope req' = true) := by
  have hrule : ∀ (rule : CommitGate.Rule) (actor action : String)
      (scope : List (String × String)),
      (((match rule.actor_id with | some a => a == actor | none => true) &&
        (match rule.action_class with | some a => a == action | none => true) &&
        CommitGate.scope_matches rule.scope_match scope) = true) ↔
      ((rule.actor_id = none ∨ rule.actor_id = some actor) ∧
       (rule.action_class = none ∨ rule.action_class = some action) ∧
       ∀ kv ∈ rule.scope_match, scope.lookup kv.1 = some kv.2) := by
    intro rule actor action scope
    rw [Bool.and_eq_true, Bool.and_eq_true, optMatch_eq, optMatch_eq,
        CommitGate.scope_matches, List.all_eq_true]
    simp only [decide_eq_true_eq, and_assoc]
  constructor
  · intro rules actor action scope
    rw [CommitGate.find_match, List.any_eq_true]
    exact exists_congr fun rule =>
      and_congr_right fun _ => hrule rule actor action scope
  · intro rule_scope req req' hsub h
    rw [CommitGate.scope_matches, List.all_eq_true] at h ⊢
    intro kv hkv
    rw [decide_eq_true_eq]
    refine hsub kv.1 kv.2 ?_
    have h' := h kv hkv
    rwa [decide_eq_true_eq] at h'

theorem C6_rule_matching_witness :
    CommitGate.scope_matches [("env", "prod")] [("env", "prod")] = true ∧
    CommitGate.scope_matches [("env", "prod")] [("env", "prod"), ("region", "eu")] = true :=
  ⟨by decide,
   C6_rule_matching.2 [("env", "prod")] [("env", "prod")] [("env", "prod"), ("region", "eu")]
     (by
       intro k v h
       by_cases hk : (k == "env") = true
       · simp [List.lookup, hk] at h ⊢
         exact h
       · simp [List.lookup, hk] at h)
     (by decide)⟩

lemma detect_drift_eq (base cur : Drift.Graph) (bh ch : String) (ack : Bool) :
    Drift.detect_drift base cur bh ch ack =
      { pass := if Drift.addedEdges (Drift.edges_set base) (Drift.edges_set cur) = []
          then true else if bh = ch then false else if ack then true else false,
        added_edges := Drift.addedEdges (Drift.edges_set base) (Drift.edges_set cur),
        removed_edges := Drift.removedEdges (Drift.edges_set base) (Drift.edges_set cur),
        reason := if Drift.addedEdges (Drift.edges_set base) (Drift.edges_set cur) = []
          then "no_expansion"
          else if bh = ch then "reachability_expansion_without_contract_revision"
          else if ack then "expansion_acknowledged_with_contract_revision"
          else "expansion_with_contract_revision_but_not_acknowledged" } := by
  rw [Drift.detect_drift]
  by_cases h1 : Drift.addedEdges (Drift.edges_set base) (Drift.edges_set cur) = [] <;>
    by_cases h2 : bh = ch <;> by_cases h3 : ack <;> simp [h1, h2, h3]

lemma mem_addedEdges {e : String × String} (b c : List (String × String)) :
    e ∈ Drift.addedEdges b c ↔ (e ∈ c ∧ e ∉ b) := by
  rw [Drift.addedEdges]
  simp only [mem_sortPairs, List.mem_filter, decide_eq_true_eq]

lemma addedEdges_nil_iff (b c : List (String × String)) :
    Drift.addedEdges b c = [] ↔ ∀ e ∈ c, e ∈ b := by
  rw [Drift.addedEdges, sortPairs_eq_nil, List.filter_eq_nil_iff]
  simp only [decide_eq_true_eq, not_not]

/-- C4: `detect_drift` computes `added`/`removed` as the lexicographically
sorted set differences of the edge sets, and resolves exactly four cases:
no added edge always passes with reason `no_expansion` (hence comparing any
graph with itself passes); an added edge under an unchanged invariant hash
always fails with `reachability_expansion_without_contract_revision`; an
added edge under a changed hash passes with
`expansion_acknowledged_with_contract_revision` iff the expansion is
acknowledged, and otherwise fails with
`expansion_with_contract_revision_but_not_acknowledged`. -/
theorem C4_drift_detection_policy :
    (∀ (base cur : Drift.Graph) (bh ch : String) (ack : Bool),
      ((Drift.detect_drift base cur bh ch ack).added_edges.Pairwise Drift.pairLe ∧
       (∀ e, e ∈ (Drift.detect_drift base cur bh ch ack).added_edges ↔
          (e ∈ Drift.edges_set cur ∧ e ∉ Drift.edges_set base)) ∧
       (Drift.detect_drift base cur bh ch ack).removed_edges.Pairwise Drift.pairLe ∧
       (∀ e, e ∈ (Drift.detect_drift base cur bh ch ack).removed_edges ↔
          (e ∈ Drift.edges_set base ∧ e ∉ Drift.edges_set cur))) ∧
      ((∀ e ∈ Drift.edges_set cur, e ∈ Drift.edges_set base) →
        (Drift.detect_drift base cur bh ch ack).pass = true ∧
        (Drift.detect_drift base cur bh ch ack).reason = "no_expansion" ∧
        (Drift.detect_drift base cur bh ch ack).added_edges = []) ∧
      (∀ e0, e0 ∈ Drift.edges_set cur → e0 ∉ Drift.edges_set base →
        (bh = ch →
          (Drift.detect_drift base cur bh ch ack).pass = false ∧
          (Drift.detect_drift base cur bh ch ack).reason =
            "reachability_expansion_without_contract_revision") ∧
        (bh ≠ ch → ack = true →
          (Drift.detect_drift base cur bh ch ack).pass = true ∧
          (Drift.detect_drift base cur bh ch ack).reason =
            "expansion_acknowledged_with_contract_revision") ∧
        (bh ≠ ch → ack = false →
          (Drift.detect_drift base cur bh ch ack).pass = false ∧
          (Drift.detect_drift base cur bh ch ack).reason =
            "expansion_with_contract_revision_but_not_acknowledged"))) ∧
    (∀ (G : Drift.Graph) (h : String),
      Drift.detect_drift G G h h false =
        { pass := true, added_edges := [], removed_edges := [],
          reason := "no_expansion" }) := by
  constructor
  · intro base cur bh ch ack
    refine ⟨⟨?_, ?_, ?_, ?_⟩, ?_, ?_⟩
    · rw [detect_drift_eq]
      exact List.sorted_insertionSort Drift.pairLe _
    · intro e
      rw [detect_drift_eq]
      exact mem_addedEdges _ _
    · rw [detect_drift_eq]
      exact List.sorted_insertionSort Drift.pairLe _
    · intro e
      rw [detect_drift_eq, Drift.removedEdges]
      simp only [mem_sortPairs, List.mem_filter, decide_eq_true_eq]
    · intro hsub
      have hnil := (addedEdges_nil_iff (Drift.edges_set base) (Drift.edges_set cur)).mpr hsub
      rw [detect_drift_eq]
      simp [hnil]
    · intro e0 hmem hnot
      have hnil : ¬ Drift.addedEdges (Drift.edges_set base) (Drift.edges_set cur) = [] := by
        intro hn
        exact hnot ((addedEdges_nil_iff _ _).mp hn e0 hmem)
      refine ⟨?_, ?_, ?_⟩
      · intro hh
        rw [detect_drift_eq]
        simp [hnil, hh]
      · intro hh hack
        rw [detect_drift_eq]
        simp [hnil, hh, hack]
      · intro hh hack
        rw [detect_drift_eq]
        simp [hnil, hh, hack]
  · intro G h
    have hadded : Drift.addedEdges (Drift.edges_set G) (Drift.edges_set G) = [] :=
      (addedEdges_nil_iff _ _).mpr (fun e he => he)
    have hremoved : Drift.removedEdges (Drift.edges_set G) (Drift.edges_set G) = [] := by
      rw [Drift.removedEdges, sortPairs_eq_nil, List.filter_eq_nil_iff]
      simp
    rw [detect_drift_eq, hadded, hremoved]
    simp

theorem C4_drift_detection_policy_witness :
    (("a", "DEPLOY") ∈ Drift.edges_set [("a", ["X", "DEPLOY"])] ∧
     ("a", "DEPLOY") ∉ Drift.edges_set [("a", ["X"])]) ∧
    (Drift.detect_drift [("a", ["X"])] [("a", ["X", "DEPLOY"])] "h1" "h1" false).pass = false ∧
    (Drift.detect_drift [("a", ["X"])] [("a", ["X", "DEPLOY"])] "h1" "h1" false).reason =
      "reachability_expansion_without_contract_revision" :=
  ⟨⟨by decide, by decide⟩,
   (((C4_drift_detection_policy.1 [("a", ["X"])] [("a", ["X", "DEPLOY"])] "h1" "h1" false).2.2
      ("a", "DEPLOY") (by decide) (by decide)).1 rfl).1,
   (((C4_drift_detection_policy.1 [("a", ["X"])] [("a", ["X", "DEPLOY"])] "h1" "h1" false).2.2
      ("a", "DEPLOY") (by decide) (by decide)).1 rfl).2⟩

lemma check_deny_iff (required provided : Evidence) :
    AuthorityGate.check required provided = Decision.DENY ↔
      ¬ required.toNat ≤ provided.toNat := by
  rw [AuthorityGate.check]
  by_cases h : required.toNat ≤ provided.toNat <;> simp [h]

/-- C1 counterexample: for the claimed end-to-end example — registry entry
TOOL_CALL_HTTP with required_authority OWNER, a HIGH-risk irreversible request
and an OWNER context — `evaluate_transition` returns APPROVED with reason
`authority_sufficient` whether or not an override token is supplied, not the
claimed REFUSED/SUPERVISION_REQUIRED and SUPERVISED/OVERRIDE_TOKEN_PRESENT. -/
theorem C1_registry_risk_escalation_counterexample :
    (Mgtp.evaluate_transition
        ⟨"TOOL_CALL_HTTP", .HIGH, true, "res-1", false, none, "2025-06-01T12:00:00Z"⟩
        ⟨"alice", "OWNER", "t1", none⟩
        [("TOOL_CALL_HTTP", ⟨"OWNER", "v0.2"⟩)]).map (fun r => (r.outcome, r.reason)) =
      .ok (Mgtp.TransitionOutcome.APPROVED, "authority_sufficient") ∧
    (Mgtp.evaluate_transition
        ⟨"TOOL_CALL_HTTP", .HIGH, true, "res-1", false, some "tok", "2025-06-01T12:00:00Z"⟩
        ⟨"alice", "OWNER", "t1", none⟩
        [("TOOL_CALL_HTTP", ⟨"OWNER", "v0.2"⟩)]).map (fun r => (r.outcome, r.reason)) =
      .ok (Mgtp.TransitionOutcome.APPROVED, "authority_sufficient") ∧
    (Except.ok (Mgtp.TransitionOutcome.APPROVED, "authority_sufficient") :
        Except String (Mgtp.TransitionOutcome × String)) ≠
      .ok (Mgtp.TransitionOutcome.REFUSED, "SUPERVISION_REQUIRED") ∧
    (Except.ok (Mgtp.TransitionOutcome.APPROVED, "authority_sufficient") :
        Except String (Mgtp.TransitionOutcome × String)) ≠
      .ok (Mgtp.TransitionOutcome.SUPERVISED, "OVERRIDE_TOKEN_PRESENT") :=
  ⟨rfl, rfl, by simp, by simp⟩

/-- C1 (amended): in registry-based evaluation, once the registry and authority
checks pass, the only escalation the code applies is the simpler policy:
`irreversible ∧ risk_class = CRITICAL` yields SUPERVISED with reason
`critical_irreversible_supervised`, and every other risk class (HIGH included)
yields APPROVED with reason `authority_sufficient`; `override_token` plays no
role in the outcome. -/
theorem C1_registry_risk_escalation
    (request : Mgtp.TransitionRequest) (context : Mgtp.AuthorityContext)
    (registry : List (String × Mgtp.RegistryEntry)) (entry : Mgtp.RegistryEntry)
    (required provided : Evidence)
    (hlook : registry.lookup request.transition_id = some entry)
    (hreq : Evidence.ofName entry.required_authority = some required)
    (hprov : Evidence.ofName context.authority_basis = some provided)
    (hle : required.toNat ≤ provided.toNat) :
    (Mgtp.evaluate_transition request context registry).map (fun r => (r.outcome, r.reason)) =
      .ok (if request.irreversible ∧ request.risk_class = Mgtp.RiskClass.CRITICAL
           then (Mgtp.TransitionOutcome.SUPERVISED, "critical_irreversible_supervised")
           else (Mgtp.TransitionOutcome.APPROVED, "authority_sufficient")) := by
  have hallow : ¬ AuthorityGate.check required provided = Decision.DENY := by
    rw [check_deny_iff]
    exact not_not_intro hle
  rw [Mgtp.evaluate_transition]
  simp only [hlook, hprov]
  rw [Mgtp.evaluate]
  simp only [hreq, hallow, if_neg, ite_false]
  by_cases hc : request.irreversible = true ∧ request.risk_class = Mgtp.RiskClass.CRITICAL <;>
    simp [hc, Except.map]

theorem C1_registry_risk_escalation_witness :
    ([("TOOL_CALL_HTTP", (⟨"OWNER", "v0.2"⟩ : Mgtp.RegistryEntry))].lookup "TOOL_CALL_HTTP" =
      some (⟨"OWNER", "v0.2"⟩ : Mgtp.RegistryEntry)) ∧
    Evidence.ofName "OWNER" = some Evidence.OWNER ∧
    Evidence.OWNER.toNat ≤ Evidence.OWNER.toNat ∧
    (Mgtp.evaluate_transition
        ⟨"TOOL_CALL_HTTP", .HIGH, true, "res-1", false, none, "2025-06-01T12:00:00Z"⟩
        ⟨"alice", "OWNER", "t1", none⟩
        [("TOOL_CALL_HTTP", ⟨"OWNER", "v0.2"⟩)]).map (fun r => (r.outcome, r.reason)) =
      .ok (Mgtp.TransitionOutcome.APPROVED, "authority_sufficient") :=
  ⟨rfl, rfl, by decide,
   by
    have h := C1_registry_risk_escalation
      ⟨"TOOL_CALL_HTTP", .HIGH, true, "res-1", false, none, "2025-06-01T12:00:00Z"⟩
      ⟨"alice", "OWNER", "t1", none⟩
      [("TOOL_CALL_HTTP", ⟨"OWNER", "v0.2"⟩)] ⟨"OWNER", "v0.2"⟩
      Evidence.OWNER Evidence.OWNER rfl rfl rfl (by decide)
    simpa using h⟩

/-- C2 counterexample: the second time-bounded path (`mgtp.evaluator.evaluate`)
refuses a decision outside its window with the sole reason
`decision_time_outside_authority_window`; the claimed reason code
`outside_authority_window` is not among the returned reason codes. -/
theorem C2_window_fail_closed_counterexample :
    (Evaluator.evaluate
        ⟨"T1", .LOW, false, "res-1", false, none, "2025-06-01T12:00:00Z"⟩
        ⟨"alice", "OWNER", "t1", none⟩ (some Evidence.OWNER)
        "2025-06-01T14:00:00Z" 3600).map (fun r => (r.verdict, r.reasons)) =
      .ok (Mgtp.TransitionOutcome.REFUSED, ["decision_time_outside_authority_window"]) ∧
    "outside_authority_window" ∉ ["decision_time_outside_authority_window"] :=
  ⟨rfl, by decide⟩

/-- C2 (amended): in `mgtp.decision_record.evaluate` a `decision_time` strictly
outside `[authority_window_start, authority_window_end]` always yields verdict
REFUSE with `outside_authority_window` appended to (not replacing) the reason
codes, before and regardless of any evidence check; in the second time-bounded
path `mgtp.evaluator.evaluate` a decision time outside
`[request.timestamp, request.timestamp + window]` likewise forces REFUSED
before the evidence check, but with the sole reason code
`decision_time_outside_authority_window`. -/
theorem C2_window_fail_closed :
    (∀ (record_id decision_time aws awe requested_verdict : String)
       (reason_codes : List String)
       (provided_evidence : Option (List DecisionRecordMod.EvidenceRef))
       (tdt tws twe : Int),
      parseRFC3339 decision_time = some tdt →
      parseRFC3339 aws = some tws →
      parseRFC3339 awe = some twe →
      ¬ (tws ≤ tdt ∧ tdt ≤ twe) →
      ∃ rec, DecisionRecordMod.evaluate record_id decision_time aws awe
          requested_verdict reason_codes provided_evidence = .ok rec ∧
        rec.verdict = "REFUSE" ∧
        DecisionRecordMod.OUTSIDE_WINDOW_REASON ∈ rec.reason_codes ∧
        ∀ c ∈ reason_codes, c ∈ rec.reason_codes) ∧
    (∀ (request : Mgtp.TransitionRequest) (context : Mgtp.AuthorityContext)
       (provided_evidence : Option Evidence) (decision_time : String)
       (wsecs : Nat) (treq tdec : Int),
      parseUTCz request.timestamp = some treq →
      parseUTCz decision_time = some tdec →
      ¬ (0 ≤ tdec - treq ∧ tdec - treq ≤ (wsecs : Int)) →
      Evaluator.evaluate request context provided_evidence decision_time wsecs =
        .ok { transition_id := request.transition_id,
              verdict := Mgtp.TransitionOutcome.REFUSED,
              reasons := ["decision_time_outside_authority_window"],
              decision_time := decision_time,
              authority_basis := context.authority_basis }) := by
  constructor
  · intro rid dt aws awe rv codes pe tdt tws twe hdt hws hwe hout
    rw [DecisionRecordMod.evaluate]
    simp only [hdt, hws, hwe]
    rw [if_pos hout]
    rw [if_neg (by
      intro hc
      have : DecisionRecordMod.Verdict.REFUSE.value = DecisionRecordMod.Verdict.ALLOW.value :=
        hc.1
      simp [DecisionRecordMod.Verdict.value] at this)]
    refine ⟨_, rfl, rfl, ?_, ?_⟩
    · rw [mem_sortStrings]
      by_cases hm : DecisionRecordMod.OUTSIDE_WINDOW_REASON ∈ codes
      · rw [if_pos hm]
        exact hm
      · rw [if_neg hm]
        simp
    · intro c hc
      rw [mem_sortStrings]
      by_cases hm : DecisionRecordMod.OUTSIDE_WINDOW_REASON ∈ codes
      · rw [if_pos hm]
        exact hc
      · rw [if_neg hm]
        exact List.mem_append_left _ hc
  · intro request context pe dt wsecs treq tdec hreq hdec hout
    rw [Evaluator.evaluate.eq_def, Evaluator.withinAuthorityWindow]
    simp only [hreq, hdec, Option.bind_eq_bind, Option.some_bind, Option.pure_def]
    rw [decide_eq_false hout]
    simp

theorem C2_window_fail_closed_witness :
    parseRFC3339 "2026-03-01T00:00:00Z" = some 1772323200 ∧
    parseRFC3339 "2026-02-28T00:00:00Z" = some 1772236800 ∧
    parseRFC3339 "2026-02-28T23:59:59Z" = some 1772323199 ∧
    ¬ ((1772236800 : Int) ≤ 1772323200 ∧ (1772323200 : Int) ≤ 1772323199) ∧
    ∃ rec, DecisionRecordMod.evaluate "rec-tb-002" "2026-03-01T00:00:00Z"
        "2026-02-28T00:00:00Z" "2026-02-28T23:59:59Z" "ALLOW" ["allowlist_match"] none =
        .ok rec ∧
      rec.verdict = "REFUSE" ∧
      DecisionRecordMod.OUTSIDE_WINDOW_REASON ∈ rec.reason_codes ∧
      ∀ c ∈ ["allowlist_match"], c ∈ rec.reason_codes :=
  ⟨by decide, by decide, by decide, by decide,
   C2_window_fail_closed.1 "rec-tb-002" "2026-03-01T00:00:00Z" "2026-02-28T00:00:00Z"
     "2026-02-28T23:59:59Z" "ALLOW" ["allowlist_match"] none 1772323200 1772236800 1772323199
     (by decide) (by decide) (by decide) (by decide)⟩

/-- C3 counterexample: the second time-bounded path (`mgtp.evaluator.evaluate`)
refuses an in-window request whose evidence is absent with the sole reason
`missing_evidence`; the claimed reason code `evidence_missing` is not among
the returned reason codes. -/
theorem C3_evidence_fail_closed_counterexample :
    (Evaluator.evaluate
        ⟨"T1", .LOW, false, "res-1", false, none, "2025-06-01T12:00:00Z"⟩
        ⟨"alice", "OWNER", "t1", none⟩ none
        "2025-06-01T12:30:00Z" 3600).map (fun r => (r.verdict, r.reasons)) =
      .ok (Mgtp.TransitionOutcome.REFUSED, ["missing_evidence"]) ∧
    "evidence_missing" ∉ ["missing_evidence"] :=
  ⟨rfl, by decide⟩

/-- C3 (amended): in `mgtp.decision_record.evaluate` an in-window ALLOW request
with absent evidence is forced to REFUSE with `evidence_missing` among its
reason codes, and no successful record carries verdict ALLOW with absent
evidence; in the second time-bounded path `mgtp.evaluator.evaluate` absent
evidence inside the window yields REFUSED with the sole reason code
`missing_evidence`, and with absent evidence every successful record is
REFUSED. -/
theorem C3_evidence_fail_closed :
    (∀ (record_id decision_time aws awe : String) (reason_codes : List String)
       (tdt tws twe : Int),
      parseRFC3339 decision_time = some tdt →
      parseRFC3339 aws = some tws →
      parseRFC3339 awe = some twe →
      (tws ≤ tdt ∧ tdt ≤ twe) →
      ∃ rec, DecisionRecordMod.evaluate record_id decision_time aws awe
          "ALLOW" reason_codes none = .ok rec ∧
        rec.verdict = "REFUSE" ∧
        DecisionRecordMod.EVIDENCE_MISSING_REASON ∈ rec.reason_codes ∧
        rec.provided_evidence = none) ∧
    (∀ (record_id decision_time aws awe requested_verdict : String)
       (reason_codes : List String)
       (provided_evidence : Option (List DecisionRecordMod.EvidenceRef))
       (rec : DecisionRecordMod.DecisionRecord),
      DecisionRecordMod.evaluate record_id decision_time aws awe requested_verdict
          reason_codes provided_evidence = .ok rec →
      rec.verdict = "ALLOW" →
      provided_evidence ≠ none ∧ rec.provided_evidence ≠ none) ∧
    (∀ (request : Mgtp.TransitionRequest) (context : Mgtp.AuthorityContext)
       (decision_time : String) (wsecs : Nat) (treq tdec : Int),
      parseUTCz request.timestamp = some treq →
      parseUTCz decision_time = some tdec →
      (0 ≤ tdec - treq ∧ tdec - treq ≤ (wsecs : Int)) →
      Evaluator.evaluate request context none decision_time wsecs =
        .ok { transition_id := request.transition_id,
              verdict := Mgtp.TransitionOutcome.REFUSED,
              reasons := ["missing_evidence"],
              decision_time := decision_time,
              authority_basis := context.authority_basis }) ∧
    (∀ (request : Mgtp.TransitionRequest) (context : Mgtp.AuthorityContext)
       (decision_time : String) (wsecs : Nat) (rec : Evaluator.EvaluatorRecord),
      Evaluator.evaluate request context none decision_time wsecs = .ok rec →
      rec.verdict = Mgtp.TransitionOutcome.REFUSED) := by
  refine ⟨?_, ?_, ?_, ?_⟩
  · intro rid dt aws awe codes tdt tws twe hdt hws hwe hwin
    rw [DecisionRecordMod.evaluate]
    simp only [hdt, hws, hwe]
    rw [if_neg (not_not_intro hwin)]
    rw [if_pos (by exact ⟨rfl, trivial⟩)]
    refine ⟨_, rfl, rfl, ?_, rfl⟩
    rw [mem_sortStrings]
    by_cases hm : DecisionRecordMod.EVIDENCE_MISSING_REASON ∈ codes
    · rw [if_pos hm]
      exact hm
    · rw [if_neg hm]
      simp
  · intro rid dt aws awe rv codes pe rec hok hv
    rw [DecisionRecordMod.evaluate] at hok
    rcases h1 : parseRFC3339 dt with _ | tdt <;> rw [h1] at hok
    · simp at hok
    rcases h2 : parseRFC3339 aws with _ | tws <;> rw [h2] at hok
    · simp at hok
    rcases h3 : parseRFC3339 awe with _ | twe <;> rw [h3] at hok
    · simp at hok
    simp only [Except.ok.injEq] at hok
    subst hok
    by_cases hw : ¬ (tws ≤ tdt ∧ tdt ≤ twe)
    · rw [if_pos hw] at hv
      by_cases hc : ((DecisionRecordMod.Verdict.REFUSE.value,
          if DecisionRecordMod.OUTSIDE_WINDOW_REASON ∈ codes then codes
          else codes ++ [DecisionRecordMod.OUTSIDE_WINDOW_REASON]).1 =
            DecisionRecordMod.Verdict.ALLOW.value ∧ pe = none)
      · rw [if_pos hc] at hv
        simp [DecisionRecordMod.Verdict.value] at hv
      · rw [if_neg hc] at hv
        simp [DecisionRecordMod.Verdict.value] at hv
    · rw [if_neg hw] at hv
      by_cases hc : ((rv, codes).1 = DecisionRecordMod.Verdict.ALLOW.value ∧ pe = none)
      · rw [if_pos hc] at hv
        simp [DecisionRecordMod.Verdict.value] at hv
      · rw [if_neg hc] at hv
        have hpe : pe ≠ none := fun hpn => hc ⟨hv, hpn⟩
        refine ⟨hpe, ?_⟩
        rcases pe with _ | l
        · exact absurd rfl hpe
        · simp
  · intro request context dt wsecs treq tdec hreq hdec hwin
    rw [Evaluator.evaluate.eq_def, Evaluator.withinAuthorityWindow]
    simp only [hreq, hdec, Option.bind_eq_bind, Option.some_bind, Option.pure_def]
    rw [decide_eq_true hwin]
    simp
  · intro request context dt wsecs rec hok
    rw [Evaluator.evaluate.eq_def] at hok
    rcases hw : Evaluator.withinAuthorityWindow request.timestamp dt wsecs with _ | b <;>
      rw [hw] at hok
    · simp at hok
    dsimp only at hok
    by_cases hb : ¬ (b = true)
    · rw [if_pos hb] at hok
      simp only [Except.ok.injEq] at hok
      subst hok
      rfl
    · rw [if_neg hb] at hok
      simp only [Except.ok.injEq] at hok
      subst hok
      rfl

theorem C3_evidence_fail_closed_witness :
    parseRFC3339 "2026-02-28T12:00:00Z" = some 1772280000 ∧
    parseRFC3339 "2026-02-28T00:00:00Z" = some 1772236800 ∧
    parseRFC3339 "2026-02-28T23:59:59Z" = some 1772323199 ∧
    ((1772236800 : Int) ≤ 1772280000 ∧ (1772280000 : Int) ≤ 1772323199) ∧
    ∃ rec, DecisionRecordMod.evaluate "rec-ev-001" "2026-02-28T12:00:00Z"
        "2026-02-28T00:00:00Z" "2026-02-28T23:59:59Z" "ALLOW" ["allowlist_match"] none =
        .ok rec ∧
      rec.verdict = "REFUSE" ∧
      DecisionRecordMod.EVIDENCE_MISSING_REASON ∈ rec.reason_codes ∧
      rec.provided_evidence = none :=
  ⟨by decide, by decide, by decide, by decide,
   C3_evidence_fail_closed.1 "rec-ev-001" "2026-02-28T12:00:00Z" "2026-02-28T00:00:00Z"
     "2026-02-28T23:59:59Z" ["allowlist_match"] 1772280000 1772236800 1772323199
     (by decide) (by decide) (by decide) (by decide)⟩
